import Mathlib

/-!
Verification of the mythril hypervisor VCPU core against its specification.

The definitions below are a shallow embedding of the Rust sources:
* `src/src/vmcs.rs` — the VMCS primitive (field enumeration, raw
  read/write, write-with-fixed-bits);
* `src/mythril/src/vcpu.rs` — the VCPU object, in particular the
  post-amble of `handle_vmexit` (timer expiry, interrupt-window gating and
  interrupt injection) and the `RdMsr` / external-interrupt arms of
  `handle_vmexit_impl`;
* `src/mythril_core/src/emulate/portio.rs` — port-I/O emulation
  (`emulate_outs`, `emulate_ins`, and the non-string path of
  `emulate_portio`).

Machine integers are modelled as `Nat` with explicit `% 2^64` where the
Rust code relies on wrapping, and `compl64` for the u64 bitwise complement.
Hardware effects (the physical VMCS, `rdmsr`, guest memory, devices, the
timer wheel and the inter-VM channel) are passed in as explicit values or
functions.  Rust panics are modelled as `Option.none`; fallible paths
return `Except Error`.
-/

namespace Mythril

/-- Modelled from the spec: the error kinds of the hypervisor's error
module (section 7 of the spec; the error module itself is not among the
provided sources).  Reason strings are kept where the embedded code
constructs them. -/
inductive Error where
  | vmcs (reason : String)
  | allocError
  | invalidValue (reason : String)
  | missingDevice (reason : String)
  | notFound
  | deviceError (reason : String)
deriving DecidableEq

/-- The two's-complement bitwise NOT of a 64-bit value (Rust `!x` on
`u64`); meaningful for `x < 2^64`. -/
def compl64 (x : Nat) : Nat := 0xffffffffffffffff ^^^ x

/-- The VMCS field descriptors, from the `VmcsField` enumeration in
`src/src/vmcs.rs`.  The numeric processor encodings carried by the Rust
enum are only consumed by the (hardware) VMREAD/VMWRITE instructions and
are therefore not reproduced here; the embedding treats the VMCS as a
store indexed by the field name. -/
inductive VmcsField where
  | VirtualProcessorId
  | PostedIntrNv
  | GuestEsSelector
  | GuestCsSelector
  | GuestSsSelector
  | GuestDsSelector
  | GuestFsSelector
  | GuestGsSelector
  | GuestLdtrSelector
  | GuestTrSelector
  | GuestIntrStatus
  | GuestPmlIndex
  | HostEsSelector
  | HostCsSelector
  | HostSsSelector
  | HostDsSelector
  | HostFsSelector
  | HostGsSelector
  | HostTrSelector
  | IoBitmapA
  | IoBitmapAHigh
  | IoBitmapB
  | IoBitmapBHigh
  | MsrBitmap
  | MsrBitmapHigh
  | VmExitMsrStoreAddr
  | VmExitMsrStoreAddrHigh
  | VmExitMsrLoadAddr
  | VmExitMsrLoadAddrHigh
  | VmEntryMsrLoadAddr
  | VmEntryMsrLoadAddrHigh
  | PmlAddress
  | PmlAddressHigh
  | TscOffset
  | TscOffsetHigh
  | VirtualApicPageAddr
  | VirtualApicPageAddrHigh
  | ApicAccessAddr
  | ApicAccessAddrHigh
  | PostedIntrDescAddr
  | PostedIntrDescAddrHigh
  | EptPointer
  | EptPointerHigh
  | EoiExitBitmap0
  | EoiExitBitmap0High
  | EoiExitBitmap1
  | EoiExitBitmap1High
  | EoiExitBitmap2
  | EoiExitBitmap2High
  | EoiExitBitmap3
  | EoiExitBitmap3High
  | VmreadBitmap
  | VmreadBitmapHigh
  | VmwriteBitmap
  | VmwriteBitmapHigh
  | XssExitBitmap
  | XssExitBitmapHigh
  | TscMultiplier
  | TscMultiplierHigh
  | GuestPhysicalAddress
  | GuestPhysicalAddressHigh
  | VmcsLinkPointer
  | VmcsLinkPointerHigh
  | GuestIa32Debugctl
  | GuestIa32DebugctlHigh
  | GuestIa32Pat
  | GuestIa32PatHigh
  | GuestIa32Efer
  | GuestIa32EferHigh
  | GuestIa32PerfGlobalCtrl
  | GuestIa32PerfGlobalCtrlHigh
  | GuestPdptr0
  | GuestPdptr0High
  | GuestPdptr1
  | GuestPdptr1High
  | GuestPdptr2
  | GuestPdptr2High
  | GuestPdptr3
  | GuestPdptr3High
  | GuestBndcfgs
  | GuestBndcfgsHigh
  | HostIa32Pat
  | HostIa32PatHigh
  | HostIa32Efer
  | HostIa32EferHigh
  | HostIa32PerfGlobalCtrl
  | HostIa32PerfGlobalCtrlHigh
  | PinBasedVmExecControl
  | CpuBasedVmExecControl
  | ExceptionBitmap
  | PageFaultErrorCodeMask
  | PageFaultErrorCodeMatch
  | Cr3TargetCount
  | VmExitControls
  | VmExitMsrStoreCount
  | VmExitMsrLoadCount
  | VmEntryControls
  | VmEntryMsrLoadCount
  | VmEntryIntrInfoField
  | VmEntryExceptionErrorCode
  | VmEntryInstructionLen
  | TprThreshold
  | SecondaryVmExecControl
  | PleGap
  | PleWindow
  | VmInstructionError
  | VmExitReason
  | VmExitIntrInfo
  | VmExitIntrErrorCode
  | IdtVectoringInfoField
  | IdtVectoringErrorCode
  | VmExitInstructionLen
  | VmxInstructionInfo
  | GuestEsLimit
  | GuestCsLimit
  | GuestSsLimit
  | GuestDsLimit
  | GuestFsLimit
  | GuestGsLimit
  | GuestLdtrLimit
  | GuestTrLimit
  | GuestGdtrLimit
  | GuestIdtrLimit
  | GuestEsArBytes
  | GuestCsArBytes
  | GuestSsArBytes
  | GuestDsArBytes
  | GuestFsArBytes
  | GuestGsArBytes
  | GuestLdtrArBytes
  | GuestTrArBytes
  | GuestInterruptibilityInfo
  | GuestActivityState
  | GuestSysenterCs
  | VmxPreemptionTimerValue
  | HostIa32SysenterCs
  | Cr0GuestHostMask
  | Cr4GuestHostMask
  | Cr0ReadShadow
  | Cr4ReadShadow
  | Cr3TargetValue0
  | Cr3TargetValue1
  | Cr3TargetValue2
  | Cr3TargetValue3
  | ExitQualification
  | GuestLinearAddress
  | GuestCr0
  | GuestCr3
  | GuestCr4
  | GuestEsBase
  | GuestCsBase
  | GuestSsBase
  | GuestDsBase
  | GuestFsBase
  | GuestGsBase
  | GuestLdtrBase
  | GuestTrBase
  | GuestGdtrBase
  | GuestIdtrBase
  | GuestDr7
  | GuestRsp
  | GuestRip
  | GuestRflags
  | GuestPendingDbgExceptions
  | GuestSysenterEsp
  | GuestSysenterEip
  | HostCr0
  | HostCr3
  | HostCr4
  | HostFsBase
  | HostGsBase
  | HostTrBase
  | HostGdtrBase
  | HostIdtrBase
  | HostIa32SysenterEsp
  | HostIa32SysenterEip
  | HostRsp
  | HostRip
deriving DecidableEq

/-- The state of the (active) VMCS, modelled as a store from field
descriptors to 64-bit values.  The hardware treats every field as a
64-bit cell (spec section 3), so the store maps each field to a `Nat`
kept below `2^64` by the operations. -/
def VmcsMap : Type := VmcsField → Nat

/-- `vmcs_write` from `src/src/vmcs.rs`: the VMWRITE instruction, i.e. a
store update of the active VMCS at `field`.  The flags-check failure path
of the real instruction is hardware nondeterminism outside the embedded
program and is modelled as success. -/
def vmcs_write (field : VmcsField) (value : Nat) (m : VmcsMap) : VmcsMap :=
  fun f => if f = field then value else m f

/-- `vmcs_read` from `src/src/vmcs.rs`: the VMREAD instruction, i.e. a
lookup in the active VMCS store. -/
def vmcs_read (field : VmcsField) (m : VmcsMap) : Nat := m field

/-- `vmcs_write_with_fixed` from `src/src/vmcs.rs` (lines 281-303).
`fixed` is the 64-bit content of the capability MSR read by the function
(the `Msr::new(msr).read()` hardware input).  The low half lists
required-1 bits, the high half allowed-1 bits; the function writes
`(value &&& high) ||| low` unless the caller requested a forbidden bit,
in which case it fails with `Error.vmcs`. -/
def vmcs_write_with_fixed (field : VmcsField) (value : Nat) (fixed : Nat)
    (m : VmcsMap) : Except Error (Nat × VmcsMap) :=
  let low := fixed &&& 0x00000000ffffffff
  let high := fixed >>> 32
  let required_value := (value &&& high) ||| low
  if value &&& compl64 required_value ≠ 0 then
    Except.error (Error.vmcs "Requested field bit not allowed by MSR")
  else
    Except.ok (required_value, vmcs_write field required_value m)

/-- `InjectedInterruptType` from `src/mythril/src/vcpu.rs` (lines 47-57),
with its `repr(u8)` discriminants exposed through `val`. -/
inductive InjectedInterruptType where
  | externalInterrupt
  | nonMaskableInterrupt
  | hardwareException
  | softwareInterrupt
  | privilegedSoftwareException
  | softwareException
  | otherEvent
deriving DecidableEq

/-- The `repr(u8)` discriminant of each `InjectedInterruptType` variant
(the `as u64` cast used when building `VmEntryIntrInfoField`). -/
def InjectedInterruptType.val : InjectedInterruptType → Nat
  | externalInterrupt => 0
  | nonMaskableInterrupt => 2
  | hardwareException => 3
  | softwareInterrupt => 4
  | privilegedSoftwareException => 5
  | softwareException => 6
  | otherEvent => 7

/-- The pending-interrupt map of a VCPU: `BTreeMap<u8, InjectedInterruptType>`
modelled as an association list sorted by strictly increasing vector
(the BTreeMap ordering invariant). -/
abbrev PendingMap : Type := List (Nat × InjectedInterruptType)

/-- `BTreeMap::insert`: inserts keeping the keys sorted; an existing
entry for the same vector is overwritten (at most one entry per vector). -/
def pendingInsert (vector : Nat) (kind : InjectedInterruptType) :
    PendingMap → PendingMap
  | [] => [(vector, kind)]
  | (v, k) :: rest =>
    if vector < v then (vector, kind) :: (v, k) :: rest
    else if vector = v then (vector, kind) :: rest
    else (v, k) :: pendingInsert vector kind rest

/-- The `VCpu` state visible to the embedded handlers: the active VMCS
store, the pending-interrupt map, and whether the VM currently owns the
physical serial device (`vm.config.physical_devices().serial.is_some()`).
The host stack, local APIC and shared-VM plumbing are not observable by
any claim. -/
structure VCpuState where
  vmcs : VmcsMap
  pending_interrupts : PendingMap
  serial : Bool

/-- `VCpu::inject_interrupt` from `src/mythril/src/vcpu.rs` (lines
122-128): record a pending interrupt, overwriting the kind on a
duplicate vector. -/
def inject_interrupt (vector : Nat) (kind : InjectedInterruptType)
    (st : VCpuState) : VCpuState :=
  { st with pending_interrupts := pendingInsert vector kind st.pending_interrupts }

/-- The timer-expiry loop at the top of the `handle_vmexit` post-amble
(`src/mythril/src/vcpu.rs` lines 389-396): each `(vector, kind)` pair
produced by `expire_elapsed_timers` is merged into the pending set.  The
timer wheel is hardware/environment state, so the expired pairs are an
input. -/
def expire_timers (timer_irqs : List (Nat × InjectedInterruptType))
    (st : VCpuState) : VCpuState :=
  timer_irqs.foldl (fun s p => inject_interrupt p.1 p.2 s) st

/-- Modelled from the spec: `InterruptibilityState::from_bits` of the
vcpu's vmcs module (that module version is not among the provided
sources; the glossary lists the four blocking bits STI, MOV-SS, SMI and
NMI).  `from_bits` yields the value when only those four low bits are
set and `none` (mapped to `Error.invalidValue` by the caller) otherwise. -/
def interruptibility_from_bits (v : Nat) : Option Nat :=
  if v &&& 0xf = v then some v else none

/-- Modelled from the spec: the `INTERRUPT_WINDOW_EXITING` flag of
`CpuBasedCtrlFlags` used by `vcpu.rs` comes from a vmcs module version
not among the provided sources; architecturally it is bit 2 of the
primary processor-based execution controls, the bit called
`VIRTUAL_INTR_PENDING` (0x4) in the `src/src/vmcs.rs` flag list. -/
def interrupt_window_exiting : Nat := 0x4

/-- The interrupt-gating block of `VCpu::handle_vmexit` from
`src/mythril/src/vcpu.rs` (lines 398-459), the code after the timer
expiry loop: return at once if the pending set is empty; otherwise
decode the interruptibility state (error on invalid bits), and either
set `INTERRUPT_WINDOW_EXITING` when the guest cannot accept an
interrupt, or clear it, pop the lowest-vector pending entry into
`VmEntryIntrInfoField`, and re-set the window bit exactly when entries
remain. -/
def handle_vmexit_gating (st : VCpuState) : Except Error VCpuState :=
  if st.pending_interrupts.isEmpty then
    Except.ok st
  else
    match interruptibility_from_bits
        (vmcs_read VmcsField.GuestInterruptibilityInfo st.vmcs) with
    | none => Except.error (Error.invalidValue "Invalid interruptibility state")
    | some interruptibility =>
      let rflags := vmcs_read VmcsField.GuestRflags st.vmcs
      let field := vmcs_read VmcsField.CpuBasedVmExecControl st.vmcs
      if ¬ interruptibility = 0 ∨ rflags &&& 0b1000000000 = 0 then
        let m := vmcs_write VmcsField.CpuBasedVmExecControl
          (field ||| interrupt_window_exiting) st.vmcs
        Except.ok { st with vmcs := m }
      else
        let m1 := vmcs_write VmcsField.CpuBasedVmExecControl
          (field &&& compl64 interrupt_window_exiting) st.vmcs
        let st1 : VCpuState := { st with vmcs := m1 }
        let st2 : VCpuState :=
          match st1.pending_interrupts with
          | [] => st1
          | (v, k) :: rest =>
            let m2 := vmcs_write VmcsField.VmEntryIntrInfoField
              (0x80000000 ||| v ||| (k.val <<< 8)) st1.vmcs
            { st1 with vmcs := m2, pending_interrupts := rest }
        if ¬ st2.pending_interrupts.isEmpty then
          let m3 := vmcs_write VmcsField.CpuBasedVmExecControl
            (field ||| interrupt_window_exiting) st2.vmcs
          Except.ok { st2 with vmcs := m3 }
        else
          let m4 := vmcs_write VmcsField.CpuBasedVmExecControl
            (field &&& compl64 interrupt_window_exiting) st2.vmcs
          Except.ok { st2 with vmcs := m4 }

/-- The post-amble of `VCpu::handle_vmexit` from `src/mythril/src/vcpu.rs`
(lines 389-459), the code that runs after `handle_vmexit_impl` returned
successfully: merge the expired timer interrupts into the pending set,
then run the interrupt-gating block. -/
def handle_vmexit_tail (timer_irqs : List (Nat × InjectedInterruptType))
    (st : VCpuState) : Except Error VCpuState :=
  handle_vmexit_gating (expire_timers timer_irqs st)

/-- `IA32_APIC_BASE` — MSR number 0x1b (the `x86::msr` constant consumed
by `vcpu.rs`). -/
def IA32_APIC_BASE : Nat := 0x1b

/-- The guest CPU snapshot (`vmexit::GuestCpuState`); its defining file
is not among the provided sources.  Modelled from the spec: a flat
record of the general-purpose registers saved by the VM-exit trampoline
(section 3).  Only the registers the embedded handlers touch are
carried. -/
structure GuestCpuState where
  rax : Nat
  rcx : Nat
  rdx : Nat
  rsi : Nat
  rdi : Nat

/-- `VCpu::skip_emulated_instruction` from `src/mythril/src/vcpu.rs`
(lines 363-371): advance `GuestRip` by `VmExitInstructionLen` (u64
wrapping addition). -/
def skip_emulated_instruction (st : VCpuState) : VCpuState :=
  let rip := (vmcs_read VmcsField.GuestRip st.vmcs +
    vmcs_read VmcsField.VmExitInstructionLen st.vmcs) % 2 ^ 64
  { st with vmcs := vmcs_write VmcsField.GuestRip rip st.vmcs }

/-- The `RdMsr` arm of `VCpu::handle_vmexit_impl` from
`src/mythril/src/vcpu.rs` (lines 498-510): `real_apic_base` is the value
the physical `rdmsr(IA32_APIC_BASE)` returns (a hardware input).  When
the guest's `RCX` (truncated to u32) is `IA32_APIC_BASE`, bit 10
(x2APIC enable) is masked off and the result is split into `RDX:RAX`,
then the instruction is skipped.  Any other MSR number reaches
`unreachable!()`, modelled as `none`. -/
def handle_rdmsr_exit (real_apic_base : Nat) (cpu : GuestCpuState)
    (st : VCpuState) : Option (GuestCpuState × VCpuState) :=
  if cpu.rcx % 2 ^ 32 = IA32_APIC_BASE then
    let real := real_apic_base &&& compl64 (1 <<< 10)
    some ({ cpu with rdx := real >>> 32, rax := real &&& 0xffffffff },
      skip_emulated_instruction st)
  else
    none

/-- `VirtualMachineMsg` from the vm module (its file is not among the
provided sources; the variants and payloads appear in the match arms of
`vcpu.rs` lines 550-559 and in spec section 6).  The serial-device
payload of `GrantConsole` is not inspected by any embedded code and is
elided. -/
inductive VirtualMachineMsg where
  | grantConsole
  | cancelTimer (timer_id : Nat)
deriving DecidableEq

/-- The `ExternalInterrupt(IPC_VECTOR)` arm of `VCpu::handle_vmexit_impl`
from `src/mythril/src/vcpu.rs` (lines 547-560): `ipc_msg` is the result
of the non-blocking `vm::recv_vm_msg()` (the inter-VM channel is
environment state); an empty queue becomes `Error.notFound` via
`ok_or_else` and propagates with `?`.  `GrantConsole` installs the serial
device on this VM; `CancelTimer` forwards the result of
`time::cancel_timer` (also an environment input).  The EOI to the local
APIC is a hardware side effect with no observable state here, and the
response-event array is empty on this path, so the drain loop (lines
574-621) is a no-op. -/
def handle_vmexit_impl_ipc (ipc_msg : Option VirtualMachineMsg)
    (cancel_timer_result : Except Error Unit) (st : VCpuState) :
    Except Error VCpuState :=
  match ipc_msg with
  | none => Except.error Error.notFound
  | some VirtualMachineMsg.grantConsole =>
    Except.ok { st with serial := true }
  | some (VirtualMachineMsg.cancelTimer _) =>
    match cancel_timer_result with
    | Except.error e => Except.error e
    | Except.ok _ => Except.ok st

/-- `VCpu::handle_vmexit` from `src/mythril/src/vcpu.rs` (lines 381-460)
specialised to an `ExternalInterrupt(IPC_VECTOR)` exit: run the
dispatcher arm (propagating its errors with `?`), then the common
post-amble. -/
def handle_vmexit_ipc (ipc_msg : Option VirtualMachineMsg)
    (cancel_timer_result : Except Error Unit)
    (timer_irqs : List (Nat × InjectedInterruptType)) (st : VCpuState) :
    Except Error VCpuState :=
  match handle_vmexit_impl_ipc ipc_msg cancel_timer_result st with
  | Except.error e => Except.error e
  | Except.ok st1 => handle_vmexit_tail timer_irqs st1

/-- `slice::chunks_exact`: split a byte list into consecutive chunks of
exactly `size` elements, discarding a shorter remainder.  (`size = 0`
panics in Rust; callers in this file guard it.) -/
def chunksExact (size : Nat) (l : List Nat) : List (List Nat) :=
  if _h : 0 < size ∧ size ≤ l.length then
    l.take size :: chunksExact size (l.drop size)
  else []
termination_by l.length
decreasing_by
  simp only [List.length_drop]
  omega

/-- Whether a byte count is representable as a `PortIoValue`
(`OneByte`/`TwoBytes`/`FourBytes`); `PortIoValue::try_from` on a slice of
any other length fails. -/
def portIoValueSize (size : Nat) : Prop := size = 1 ∨ size = 2 ∨ size = 4

instance (size : Nat) : Decidable (portIoValueSize size) := by
  unfold portIoValueSize
  infer_instance

/-- `emulate_outs` from `src/mythril_core/src/emulate/portio.rs` (lines
7-44).  Environment inputs: `mem addr` is the guest-memory byte at
linear address `addr` (`guest_space.read_bytes` modelled as a readable
mapping), the device bound to the port exists, and its `on_port_write`
always succeeds.  The function reads `rcx * size` bytes starting at the
`GuestLinearAddress` VMCS field, hands them to the device in `size`-byte
chunks (returned here as the device-write trace), adds the byte count to
`RSI` and zeroes `RCX`.  `size = 0` makes `chunks_exact` panic
(`none`); a chunk length outside {1,2,4} makes `PortIoValue::try_from`
fail. -/
def emulate_outs (mem : Nat → Nat) (size : Nat) (cpu : GuestCpuState)
    (st : VCpuState) :
    Option (Except Error (List (List Nat) × GuestCpuState)) :=
  if size = 0 then
    none
  else
    let linear_addr := vmcs_read VmcsField.GuestLinearAddress st.vmcs
    let bytes := (List.range (cpu.rcx * size)).map (fun i => mem (linear_addr + i))
    let chunks := chunksExact size bytes
    if portIoValueSize size ∨ chunks = [] then
      some (Except.ok (chunks,
        { cpu with rsi := (cpu.rsi + bytes.length) % 2 ^ 64, rcx := 0 }))
    else
      some (Except.error (Error.invalidValue "PortIoValue try_from failed"))

/-- `emulate_ins` from `src/mythril_core/src/emulate/portio.rs` (lines
46-76).  Environment inputs: `dev_read i` is the `size`-byte value the
device's `on_port_read` stores on its i-th call (padded/truncated to
`size` bytes, as a `PortIoValue` of that width holds exactly `size`
bytes), and `guest_space.write_bytes` succeeds.  The function allocates
a buffer of `rcx` zero bytes, lets the device fill each complete
`size`-byte chunk in turn, writes the buffer to guest memory at the
`GuestLinearAddress` (returned here as the written byte list), adds the
buffer length to `RDI` and zeroes `RCX`.  `size = 0` makes
`chunks_exact_mut` panic (`none`); a chunk length outside {1,2,4} makes
`PortIoValue::try_from` fail. -/
def emulate_ins (dev_read : Nat → List Nat) (size : Nat)
    (cpu : GuestCpuState) :
    Option (Except Error (List Nat × GuestCpuState)) :=
  if size = 0 then
    none
  else
    let n := cpu.rcx / size
    if ¬ portIoValueSize size ∧ ¬ n = 0 then
      some (Except.error (Error.invalidValue "PortIoValue try_from failed"))
    else
      let bytes :=
        ((List.range n).map (fun i => (dev_read i ++ List.replicate size 0).take size)).flatten
          ++ List.replicate (cpu.rcx - n * size) 0
      some (Except.ok (bytes,
        { cpu with rdi := (cpu.rdi + bytes.length) % 2 ^ 64, rcx := 0 }))

/-- The non-string input arm of `emulate_portio` from
`src/mythril_core/src/emulate/portio.rs` (lines 100-110): `dev_val` is
`val.as_u32()` after the device's `on_port_read` filled the `size`-wide
`PortIoValue` (so `dev_val < 2^(8*size)`).  A size outside {1,2,4} hits
the `panic!` arm of the `match`, modelled as `none`; otherwise the
result is the new guest `RAX`, computed by the code as
`rax &= (!rax) << (size*8); rax |= dev_val` (u64 semantics). -/
def emulate_portio_read (size : Nat) (dev_val : Nat) (rax : Nat) :
    Option Nat :=
  if portIoValueSize size then
    some ((rax &&& ((compl64 rax <<< (size * 8)) % 2 ^ 64)) ||| dev_val)
  else
    none

/-! ### Observation predicates and concrete states used by the claims -/

/-- The `INTERRUPT_WINDOW_EXITING` bit (bit 2, the value of
`interrupt_window_exiting`) of the primary CPU-based execution controls
of a VCPU state. -/
def windowBitSet (st : VCpuState) : Prop :=
  Nat.testBit (vmcs_read VmcsField.CpuBasedVmExecControl st.vmcs) 2 = true

instance (st : VCpuState) : Decidable (windowBitSet st) := by
  unfold windowBitSet
  infer_instance

/-- The injectability condition the post-amble tests: the
interruptibility state read from `GuestInterruptibilityInfo` is zero and
bit 9 (IF) of `GuestRflags` is set. -/
def injectableState (st : VCpuState) : Prop :=
  vmcs_read VmcsField.GuestInterruptibilityInfo st.vmcs = 0 ∧
    Nat.testBit (vmcs_read VmcsField.GuestRflags st.vmcs) 9 = true

instance (st : VCpuState) : Decidable (injectableState st) := by
  unfold injectableState
  infer_instance

/-- Lift a state predicate over a handler result: it must have returned
successfully and the final state must satisfy the predicate. -/
def onOk (P : VCpuState → Prop) : Except Error VCpuState → Prop
  | Except.ok s => P s
  | Except.error _ => False

/-- The pending-interrupt ordering invariant of `BTreeMap`: keys strictly
increase along the association list. -/
def pendingSorted (l : PendingMap) : Prop :=
  List.Pairwise (fun a b => a.1 < b.1) l

/-- The post-state contract of the `RdMsr(IA32_APIC_BASE)` handler: with
`masked` the physical value with bit 10 cleared, `RDX` holds its high 32
bits and `RAX` its low 32 bits (all other guest registers untouched),
and `GuestRip` advanced by `VmExitInstructionLen`. -/
def rdmsrPost (real_apic_base : Nat) (cpu : GuestCpuState) (st : VCpuState) :
    Option (GuestCpuState × VCpuState) → Prop
  | some (cpu', st') =>
    let masked := real_apic_base &&& compl64 (1 <<< 10)
    cpu'.rdx = masked >>> 32 ∧
    cpu'.rax = masked &&& 0xffffffff ∧
    Nat.testBit masked 10 = false ∧
    (∀ i, ¬ i = 10 → Nat.testBit masked i = Nat.testBit real_apic_base i) ∧
    vmcs_read VmcsField.GuestRip st'.vmcs =
      (vmcs_read VmcsField.GuestRip st.vmcs +
        vmcs_read VmcsField.VmExitInstructionLen st.vmcs) % 2 ^ 64 ∧
    cpu'.rcx = cpu.rcx ∧ cpu'.rsi = cpu.rsi ∧ cpu'.rdi = cpu.rdi
  | none => False

/-- The all-zero VMCS store, a convenient base state for the concrete
examples. -/
def vmcs0 : VmcsMap := fun _ => 0

/-- A quiescent VCPU state: zero VMCS, no pending interrupts, no serial
ownership. -/
def st0 : VCpuState :=
  { vmcs := vmcs0, pending_interrupts := [], serial := false }

/-- A VCPU state with the interrupt-window bit already set in the
execution controls and an empty pending set. -/
def winSetSt : VCpuState :=
  { vmcs := vmcs_write VmcsField.CpuBasedVmExecControl 4 vmcs0,
    pending_interrupts := [], serial := false }

/-- An injectable VCPU state (interruptibility 0, IF set) with a single
pending external interrupt at vector 5. -/
def onePendingSt : VCpuState :=
  { vmcs := vmcs_write VmcsField.GuestRflags 0x200 vmcs0,
    pending_interrupts := [(5, InjectedInterruptType.externalInterrupt)],
    serial := false }

/-- An injectable VCPU state whose pending set was built by injecting
vectors 0x30, 0x21 and 0x40 in that order (the lowest-vector-policy
example of the spec). -/
def threePendingSt : VCpuState :=
  { vmcs := vmcs_write VmcsField.GuestRflags 0x200 vmcs0,
    pending_interrupts :=
      pendingInsert 0x40 InjectedInterruptType.externalInterrupt
        (pendingInsert 0x21 InjectedInterruptType.externalInterrupt
          (pendingInsert 0x30 InjectedInterruptType.externalInterrupt [])),
    serial := false }

/-- The guest CPU snapshot of the MSR-read example: `RCX = 0x1B`. -/
def rdmsrCpu : GuestCpuState :=
  { rax := 0, rcx := 0x1b, rdx := 0, rsi := 0, rdi := 0 }

/-- The guest CPU snapshot of the string-input example: `RCX = 3`
repetitions, `RDI = 100`. -/
def insCpu : GuestCpuState :=
  { rax := 0, rcx := 3, rdx := 0, rsi := 0, rdi := 100 }

/-- A device whose port reads always return the two bytes 0xAA 0xBB. -/
def constDevRead : Nat → List Nat := fun _ => [0xaa, 0xbb]

/-- Replace the VMCS store of a VCPU state (notation helper for stating
the gating lemmas). -/
def withVmcs (m : VmcsMap) (st : VCpuState) : VCpuState :=
  { st with vmcs := m }

/-- Replace the VMCS store and pending map of a VCPU state (notation
helper for stating the gating lemmas). -/
def withVmcsPending (m : VmcsMap) (p : PendingMap) (st : VCpuState) :
    VCpuState :=
  { st with vmcs := m, pending_interrupts := p }

instance (l : PendingMap) : Decidable (pendingSorted l) := by
  unfold pendingSorted
  infer_instance

/-! ### Helper lemmas -/

theorem expire_timers_nil (st : VCpuState) : expire_timers [] st = st := rfl

theorem expire_timers_cons (p : Nat × InjectedInterruptType)
    (t : List (Nat × InjectedInterruptType)) (st : VCpuState) :
    expire_timers (p :: t) st = expire_timers t (inject_interrupt p.1 p.2 st) := rfl

theorem inject_interrupt_vmcs (v : Nat) (k : InjectedInterruptType)
    (st : VCpuState) : (inject_interrupt v k st).vmcs = st.vmcs := rfl

theorem expire_timers_vmcs (t : List (Nat × InjectedInterruptType))
    (st : VCpuState) : (expire_timers t st).vmcs = st.vmcs := by
  induction t generalizing st with
  | nil => rfl
  | cons p t ih => rw [expire_timers_cons, ih, inject_interrupt_vmcs]

theorem vmcs_read_write_same (f : VmcsField) (v : Nat) (m : VmcsMap) :
    vmcs_read f (vmcs_write f v m) = v := by
  simp [vmcs_read, vmcs_write]

theorem vmcs_read_write_ne (f g : VmcsField) (v : Nat) (m : VmcsMap)
    (h : ¬ f = g) : vmcs_read f (vmcs_write g v m) = vmcs_read f m := by
  simp [vmcs_read, vmcs_write, h]

theorem interruptibility_from_bits_some {x i : Nat}
    (h : interruptibility_from_bits x = some i) : i = x := by
  unfold interruptibility_from_bits at h
  split at h
  · exact (Option.some_inj.mp h).symm
  · exact absurd h (by simp)

theorem and_512_eq_zero_iff (n : Nat) :
    n &&& 0b1000000000 = 0 ↔ Nat.testBit n 9 = false := by
  have h : (0b1000000000 : Nat) = 2 ^ 9 := by norm_num
  rw [h, Nat.and_two_pow]
  cases hb : n.testBit 9 <;> simp [hb]

theorem testBit2_or_window (f : Nat) :
    Nat.testBit (f ||| interrupt_window_exiting) 2 = true := by
  rw [Nat.testBit_or]
  have h : Nat.testBit interrupt_window_exiting 2 = true := by decide
  simp [h]

theorem testBit2_and_compl_window (f : Nat) :
    Nat.testBit (f &&& compl64 interrupt_window_exiting) 2 = false := by
  rw [Nat.testBit_and]
  have h : Nat.testBit (compl64 interrupt_window_exiting) 2 = false := by decide
  simp [h]

theorem gating_empty (st : VCpuState) (h : st.pending_interrupts = []) :
    handle_vmexit_gating st = Except.ok st := by
  unfold handle_vmexit_gating
  rw [h]
  rfl

theorem gating_invalid (st : VCpuState)
    (hne : ¬ st.pending_interrupts = [])
    (hi : interruptibility_from_bits
      (vmcs_read VmcsField.GuestInterruptibilityInfo st.vmcs) = none) :
    handle_vmexit_gating st =
      Except.error (Error.invalidValue "Invalid interruptibility state") := by
  have hbe : st.pending_interrupts.isEmpty = false := by
    simpa [List.isEmpty_iff] using hne
  unfold handle_vmexit_gating
  rw [hbe, hi]
  rfl

theorem gating_blocked (st : VCpuState) (i : Nat)
    (hne : ¬ st.pending_interrupts = [])
    (hi : interruptibility_from_bits
      (vmcs_read VmcsField.GuestInterruptibilityInfo st.vmcs) = some i)
    (hblock : ¬ i = 0 ∨
      vmcs_read VmcsField.GuestRflags st.vmcs &&& 0b1000000000 = 0) :
    handle_vmexit_gating st = Except.ok (withVmcs
      (vmcs_write VmcsField.CpuBasedVmExecControl
        (vmcs_read VmcsField.CpuBasedVmExecControl st.vmcs |||
          interrupt_window_exiting) st.vmcs) st) := by
  have hbe : st.pending_interrupts.isEmpty = false := by
    simpa [List.isEmpty_iff] using hne
  unfold handle_vmexit_gating
  rw [hbe, hi]
  simp [withVmcs, hblock]

theorem gating_inject_more (st : VCpuState) (v : Nat)
    (k : InjectedInterruptType) (rest : PendingMap)
    (hp : st.pending_interrupts = (v, k) :: rest)
    (hi : interruptibility_from_bits
      (vmcs_read VmcsField.GuestInterruptibilityInfo st.vmcs) = some 0)
    (hif : ¬ vmcs_read VmcsField.GuestRflags st.vmcs &&& 0b1000000000 = 0)
    (hrest : ¬ rest = []) :
    handle_vmexit_gating st = Except.ok (withVmcsPending
      (vmcs_write VmcsField.CpuBasedVmExecControl
        (vmcs_read VmcsField.CpuBasedVmExecControl st.vmcs |||
          interrupt_window_exiting)
        (vmcs_write VmcsField.VmEntryIntrInfoField
          (0x80000000 ||| v ||| (k.val <<< 8))
          (vmcs_write VmcsField.CpuBasedVmExecControl
            (vmcs_read VmcsField.CpuBasedVmExecControl st.vmcs &&&
              compl64 interrupt_window_exiting) st.vmcs)))
      rest st) := by
  have hre : rest.isEmpty = false := by
    simpa [List.isEmpty_iff] using hrest
  unfold handle_vmexit_gating
  rw [hp, hi]
  simp [withVmcsPending, hif, hre]

theorem gating_inject_last (st : VCpuState) (v : Nat)
    (k : InjectedInterruptType)
    (hp : st.pending_interrupts = [(v, k)])
    (hi : interruptibility_from_bits
      (vmcs_read VmcsField.GuestInterruptibilityInfo st.vmcs) = some 0)
    (hif : ¬ vmcs_read VmcsField.GuestRflags st.vmcs &&& 0b1000000000 = 0) :
    handle_vmexit_gating st = Except.ok (withVmcsPending
      (vmcs_write VmcsField.CpuBasedVmExecControl
        (vmcs_read VmcsField.CpuBasedVmExecControl st.vmcs &&&
          compl64 interrupt_window_exiting)
        (vmcs_write VmcsField.VmEntryIntrInfoField
          (0x80000000 ||| v ||| (k.val <<< 8))
          (vmcs_write VmcsField.CpuBasedVmExecControl
            (vmcs_read VmcsField.CpuBasedVmExecControl st.vmcs &&&
              compl64 interrupt_window_exiting) st.vmcs)))
      [] st) := by
  unfold handle_vmexit_gating
  rw [hp, hi]
  simp [withVmcsPending, hif]

theorem mem_pendingInsert (q : Nat × InjectedInterruptType) (v : Nat)
    (k : InjectedInterruptType) (l : PendingMap)
    (h : q ∈ pendingInsert v k l) : q = (v, k) ∨ q ∈ l := by
  induction l with
  | nil => simpa [pendingInsert] using h
  | cons p rest ih =>
    obtain ⟨pv, pk⟩ := p
    unfold pendingInsert at h
    by_cases h1 : v < pv
    · rw [if_pos h1] at h
      rcases List.mem_cons.mp h with h2 | h2
      · exact Or.inl h2
      · exact Or.inr h2
    · rw [if_neg h1] at h
      by_cases h2 : v = pv
      · rw [if_pos h2] at h
        rcases List.mem_cons.mp h with h3 | h3
        · exact Or.inl h3
        · exact Or.inr (List.mem_cons_of_mem _ h3)
      · rw [if_neg h2] at h
        rcases List.mem_cons.mp h with h3 | h3
        · exact Or.inr (h3 ▸ List.mem_cons_self _ _)
        · rcases ih h3 with h4 | h4
          · exact Or.inl h4
          · exact Or.inr (List.mem_cons_of_mem _ h4)

theorem pendingInsert_sorted (v : Nat) (k : InjectedInterruptType)
    (l : PendingMap) (h : pendingSorted l) :
    pendingSorted (pendingInsert v k l) := by
  induction l with
  | nil => simp [pendingInsert, pendingSorted]
  | cons p rest ih =>
    obtain ⟨pv, pk⟩ := p
    rw [pendingSorted, List.pairwise_cons] at h
    obtain ⟨hp, hrest⟩ := h
    unfold pendingInsert
    by_cases h1 : v < pv
    · rw [if_pos h1, pendingSorted, List.pairwise_cons]
      refine ⟨?_, List.pairwise_cons.mpr ⟨hp, hrest⟩⟩
      intro q hq
      rcases List.mem_cons.mp hq with h2 | h2
      · rw [h2]
        exact h1
      · exact Nat.lt_trans h1 (hp q h2)
    · rw [if_neg h1]
      by_cases h2 : v = pv
      · rw [if_pos h2, pendingSorted, List.pairwise_cons]
        refine ⟨?_, hrest⟩
        intro q hq
        rw [h2]
        exact hp q hq
      · rw [if_neg h2, pendingSorted, List.pairwise_cons]
        refine ⟨?_, ih hrest⟩
        intro q hq
        rcases mem_pendingInsert q v k rest hq with h3 | h3
        · rw [h3]
          omega
        · exact hp q h3

theorem pendingSorted_head_min (v : Nat) (k : InjectedInterruptType)
    (rest : PendingMap) (h : pendingSorted ((v, k) :: rest)) :
    ∀ p ∈ ((v, k) :: rest : PendingMap), v ≤ p.1 := by
  intro p hp
  rcases List.mem_cons.mp hp with h1 | h1
  · rw [h1]
  · exact Nat.le_of_lt ((List.pairwise_cons.mp h).1 p h1)

theorem inject_interrupt_pending (v : Nat) (k : InjectedInterruptType)
    (st : VCpuState) :
    (inject_interrupt v k st).pending_interrupts =
      pendingInsert v k st.pending_interrupts := rfl

theorem expire_timers_sorted (t : List (Nat × InjectedInterruptType))
    (st : VCpuState) (h : pendingSorted st.pending_interrupts) :
    pendingSorted ((expire_timers t st).pending_interrupts) := by
  induction t generalizing st with
  | nil => exact h
  | cons p t ih =>
    rw [expire_timers_cons]
    exact ih _ (pendingInsert_sorted _ _ _ h)

theorem withVmcs_vmcs (m : VmcsMap) (st : VCpuState) :
    (withVmcs m st).vmcs = m := rfl

theorem withVmcs_pending (m : VmcsMap) (st : VCpuState) :
    (withVmcs m st).pending_interrupts = st.pending_interrupts := rfl

theorem withVmcsPending_vmcs (m : VmcsMap) (p : PendingMap) (st : VCpuState) :
    (withVmcsPending m p st).vmcs = m := rfl

theorem withVmcsPending_pending (m : VmcsMap) (p : PendingMap)
    (st : VCpuState) : (withVmcsPending m p st).pending_interrupts = p := rfl

/-! ### Claim theorems -/

/-- C2: for every value and every capability-MSR content with low half
`low = fixed &&& 0xffffffff` and high half `high = fixed >>> 32`,
`vmcs_write_with_fixed` computes `required = (value &&& high) ||| low`;
it fails with a `Vmcs` error iff `value &&& !required ≠ 0`, and
otherwise writes exactly `required` to the field and returns it. -/
theorem c2_write_with_fixed_masking (field : VmcsField) (value fixed : Nat)
    (m : VmcsMap) :
    ((vmcs_write_with_fixed field value fixed m).isOk = true ↔
      value &&& compl64
        ((value &&& (fixed >>> 32)) ||| (fixed &&& 0x00000000ffffffff)) = 0) ∧
    (value &&& compl64
        ((value &&& (fixed >>> 32)) ||| (fixed &&& 0x00000000ffffffff)) = 0 →
      vmcs_write_with_fixed field value fixed m = Except.ok
        ((value &&& (fixed >>> 32)) ||| (fixed &&& 0x00000000ffffffff),
          vmcs_write field
            ((value &&& (fixed >>> 32)) ||| (fixed &&& 0x00000000ffffffff))
            m)) ∧
    (¬ value &&& compl64
        ((value &&& (fixed >>> 32)) ||| (fixed &&& 0x00000000ffffffff)) = 0 →
      vmcs_write_with_fixed field value fixed m =
        Except.error (Error.vmcs "Requested field bit not allowed by MSR")) := by
  unfold vmcs_write_with_fixed
  by_cases h : value &&& compl64
      ((value &&& (fixed >>> 32)) ||| (fixed &&& 0x00000000ffffffff)) = 0
  · simp [h, Except.isOk, Except.toBool]
  · simp [h, Except.isOk, Except.toBool]

/-- C2 witness: with `fixed = 0xf00000001` (low half 1, high half 0xf)
and `value = 6`, the call succeeds and writes `(6 &&& 0xf) ||| 1 = 7`. -/
theorem c2_write_with_fixed_masking_witness :
    vmcs_write_with_fixed VmcsField.CpuBasedVmExecControl 6 0xf00000001
      vmcs0 = Except.ok
        (7, vmcs_write VmcsField.CpuBasedVmExecControl 7 vmcs0) := by
  exact (c2_write_with_fixed_masking VmcsField.CpuBasedVmExecControl 6
    0xf00000001 vmcs0).2.1 (by decide)

/-- C5: evaluation of the string-input emulation at a failing input.
With `size = 2` and `RCX = 3` the claim requires `rcx * size = 6` bytes
transferred and `RDI` advanced by 6; the code instead allocates a
buffer of `rcx = 3` bytes, performs a single 2-byte device read, writes
3 bytes to guest memory and advances `RDI` by 3 (`emulate_ins` uses
`vec![0u8; rcx]`, not `rcx * size`). -/
theorem c5_ins_transfers_rcx_bytes :
    emulate_ins constDevRead 2 insCpu = some (Except.ok ([0xaa, 0xbb, 0],
      { rax := 0, rcx := 0, rdx := 0, rsi := 0, rdi := 103 })) := by
  rfl

/-- C6: evaluation of the non-string input emulation at a failing input.
With `RAX = 0x010100`, `size = 1` and device value 0, the mask
`(!rax) << 8` fails to preserve bit 16 of `RAX`: the code produces
`RAX = 0x100`, while the claim requires every bit above bit 8 to be
preserved (so bit 16 should still be set). -/
theorem c6_rax_high_bits_clobbered :
    emulate_portio_read 1 0 0x010100 = some 0x100 ∧
    Nat.testBit 0x010100 16 = true ∧ Nat.testBit 0x100 16 = false := by
  exact ⟨rfl, by decide, by decide⟩

/-- C7 counterexample: at an IPC-vector external-interrupt exit with an
empty inter-VM message queue, `handle_vmexit` does not return `Ok` as
the claim states: `recv_vm_msg().ok_or_else(Error::NotFound)?`
propagates, so the handler returns `Err(NotFound)`. -/
theorem c7_empty_ipc_returns_error :
    handle_vmexit_ipc none (Except.ok ()) [] st0 =
      Except.error Error.notFound := rfl

/-- C7 (amended): at an IPC-vector external-interrupt exit with an
empty inter-VM message queue, the handler propagates `Error.notFound`
out of `handle_vmexit` (for every cancel-timer environment, timer list
and VCPU state), rather than returning normally. -/
theorem c7_empty_ipc_amended (cancel_timer_result : Except Error Unit)
    (timer_irqs : List (Nat × InjectedInterruptType)) (st : VCpuState) :
    handle_vmexit_ipc none cancel_timer_result timer_irqs st =
      Except.error Error.notFound := rfl

/-- C10: the non-string input path of `emulate_portio` hits the
`panic!` arm (modelled as `none`) exactly when the size operand is not
1, 2 or 4; it is panic-free exactly for sizes 1, 2 and 4. -/
theorem c10_portio_read_panic_sizes (size dev_val rax : Nat) :
    emulate_portio_read size dev_val rax = none ↔
      ¬ (size = 1 ∨ size = 2 ∨ size = 4) := by
  unfold emulate_portio_read
  by_cases h : portIoValueSize size
  · rw [if_pos h]
    constructor
    · intro hc
      cases hc
    · intro hn
      exact absurd h hn
  · rw [if_neg h]
    constructor
    · intro _
      exact h
    · intro _
      rfl

/-- C8: at a RdMsr exit with guest `RCX = 0x1B` (`IA32_APIC_BASE`), the
handler reads the physical MSR, clears bit 10 (x2APIC enable) while
preserving every other bit, stores the high 32 bits in guest `RDX` and
the low 32 bits in guest `RAX`, leaves the other registers alone, and
advances `GuestRip` by `VmExitInstructionLen`. -/
theorem c8_rdmsr_apic_base (real_apic_base : Nat) (cpu : GuestCpuState)
    (st : VCpuState) (hreal : real_apic_base < 2 ^ 64)
    (hrcx : cpu.rcx % 2 ^ 32 = IA32_APIC_BASE) :
    rdmsrPost real_apic_base cpu st
      (handle_rdmsr_exit real_apic_base cpu st) := by
  unfold handle_rdmsr_exit
  rw [if_pos hrcx]
  simp only [rdmsrPost]
  refine ⟨trivial, trivial, ?_, ?_, ?_, trivial, trivial, trivial⟩
  · have hc : Nat.testBit (compl64 (1 <<< 10)) 10 = false := by decide
    rw [Nat.testBit_and, hc, Bool.and_false]
  · intro i hi
    rw [Nat.testBit_and]
    by_cases h64 : i < 64
    · have hc : Nat.testBit (compl64 (1 <<< 10)) i = true := by
        unfold compl64
        rw [Nat.testBit_xor]
        have e1 : (0xffffffffffffffff : Nat) = 2 ^ 64 - 1 := by norm_num
        rw [e1, Nat.testBit_two_pow_sub_one, Nat.one_shiftLeft,
          Nat.testBit_two_pow]
        simp [h64, Ne.symm hi]
      rw [hc, Bool.and_true]
    · have hge : 2 ^ 64 ≤ 2 ^ i :=
        Nat.pow_le_pow_right (by norm_num) (Nat.le_of_not_lt h64)
      have hr : real_apic_base.testBit i = false :=
        Nat.testBit_lt_two_pow (Nat.lt_of_lt_of_le hreal hge)
      rw [hr]
      simp
  · simp [skip_emulated_instruction, vmcs_read_write_same]

/-- C8 witness: the spec's literal example, physical value `0xFEE00D00`
with bit 10 set; the handler yields `RDX = 0`, `RAX = 0xFEE00900` and
advances RIP. -/
theorem c8_rdmsr_apic_base_witness :
    rdmsrPost 0xfee00d00 rdmsrCpu st0
      (handle_rdmsr_exit 0xfee00d00 rdmsrCpu st0) :=
  c8_rdmsr_apic_base 0xfee00d00 rdmsrCpu st0 (by decide) (by decide)

/-- C1 counterexample: a successful `handle_vmexit` post-amble from a
state with the interrupt-window bit set and an empty pending set leaves
the bit set — the claim requires it to be cleared before returning when
the pending set is empty after timer expiry, but the code returns
without touching the execution controls. -/
theorem c1_window_not_cleared_when_empty :
    handle_vmexit_tail [] winSetSt = Except.ok winSetSt ∧
    windowBitSet winSetSt ∧ winSetSt.pending_interrupts = [] := by
  exact ⟨rfl, by decide, rfl⟩

/-- C1 (amended): after every successful return of the `handle_vmexit`
post-amble, `INTERRUPT_WINDOW_EXITING` is set iff the pending set (after
timer expiry) is non-empty and the guest was not injectable this round,
or the pending set is still non-empty after one injection, or the
pending set is empty and the bit was already set on entry (the
empty-pending early return leaves the controls untouched instead of
clearing the bit). -/
theorem c1_window_bit_amended (t : List (Nat × InjectedInterruptType))
    (st st' : VCpuState) (h : handle_vmexit_tail t st = Except.ok st') :
    (windowBitSet st' ↔
      (¬ (expire_timers t st).pending_interrupts = [] ∧
        ¬ injectableState (expire_timers t st)) ∨
      (¬ (expire_timers t st).pending_interrupts = [] ∧
        injectableState (expire_timers t st) ∧
        ¬ ((expire_timers t st).pending_interrupts).tail = []) ∨
      ((expire_timers t st).pending_interrupts = [] ∧ windowBitSet st)) := by
  unfold handle_vmexit_tail at h
  set E := expire_timers t st with hE
  have hEv : E.vmcs = st.vmcs := by
    rw [hE]
    exact expire_timers_vmcs t st
  rcases hp : E.pending_interrupts with _ | ⟨⟨v, k⟩, rest⟩
  · rw [gating_empty E hp] at h
    injection h with h2
    subst h2
    unfold windowBitSet
    rw [hEv]
    simp
  · have hne : ¬ E.pending_interrupts = [] := by
      rw [hp]
      simp
    rcases hfb : interruptibility_from_bits
        (vmcs_read VmcsField.GuestInterruptibilityInfo E.vmcs) with _ | i
    · rw [gating_invalid E hne hfb] at h
      cases h
    · by_cases hinj : injectableState E
      · have hinj' := hinj
        unfold injectableState at hinj'
        obtain ⟨hint, hifb⟩ := hinj'
        have hi0 : i = 0 := (interruptibility_from_bits_some hfb).trans hint
        subst hi0
        have hif : ¬ vmcs_read VmcsField.GuestRflags E.vmcs &&&
            0b1000000000 = 0 := by
          rw [and_512_eq_zero_iff]
          simp [hifb]
        by_cases hr : rest = []
        · subst hr
          rw [gating_inject_last E v k hp hfb hif] at h
          injection h with h2
          subst h2
          apply iff_of_false
          · unfold windowBitSet
            rw [withVmcsPending_vmcs, vmcs_read_write_same,
              testBit2_and_compl_window]
            simp
          · rintro (⟨h1, h2⟩ | ⟨h1, h2, h3⟩ | ⟨h1, h2⟩)
            · exact h2 hinj
            · exact h3 rfl
            · exact absurd h1 (by simp)
        · rw [gating_inject_more E v k rest hp hfb hif hr] at h
          injection h with h2
          subst h2
          apply iff_of_true
          · unfold windowBitSet
            rw [withVmcsPending_vmcs, vmcs_read_write_same]
            exact testBit2_or_window _
          · exact Or.inr (Or.inl ⟨by simp, hinj, by simpa using hr⟩)
      · have hblock : ¬ i = 0 ∨ vmcs_read VmcsField.GuestRflags E.vmcs &&&
            0b1000000000 = 0 := by
          have hival := interruptibility_from_bits_some hfb
          unfold injectableState at hinj
          rcases not_and_or.mp hinj with h1 | h1
          · left
            rw [hival]
            exact h1
          · right
            rw [and_512_eq_zero_iff]
            simpa using h1
        rw [gating_blocked E i hne hfb hblock] at h
        injection h with h2
        subst h2
        apply iff_of_true
        · unfold windowBitSet
          rw [withVmcs_vmcs, vmcs_read_write_same]
          exact testBit2_or_window _
        · exact Or.inl ⟨by simp, hinj⟩

/-- C1 witness: the amended theorem applied to the quiescent state
(empty pending set, window bit clear): both sides of the equivalence
are false. -/
theorem c1_window_bit_amended_witness :
    (windowBitSet st0 ↔
      (¬ (expire_timers [] st0).pending_interrupts = [] ∧
        ¬ injectableState (expire_timers [] st0)) ∨
      (¬ (expire_timers [] st0).pending_interrupts = [] ∧
        injectableState (expire_timers [] st0) ∧
        ¬ ((expire_timers [] st0).pending_interrupts).tail = []) ∨
      ((expire_timers [] st0).pending_interrupts = [] ∧ windowBitSet st0)) :=
  c1_window_bit_amended [] st0 st0 rfl

/-- C3: whenever the pending-interrupt set is non-empty after timer
expiry, the `handle_vmexit` post-amble injects an interrupt into
`VmEntryIntrInfoField` (popping the head entry) if and only if the
interruptibility state read from `GuestInterruptibilityInfo` is zero and
bit 9 (IF) of `GuestRflags` is set. -/
theorem c3_injection_gating (t : List (Nat × InjectedInterruptType))
    (st : VCpuState) (v : Nat) (k : InjectedInterruptType)
    (rest : PendingMap)
    (hA : (expire_timers t st).pending_interrupts = (v, k) :: rest) :
    (onOk (fun s => s.pending_interrupts = rest ∧
        vmcs_read VmcsField.VmEntryIntrInfoField s.vmcs =
          0x80000000 ||| v ||| (k.val <<< 8))
      (handle_vmexit_tail t st) ↔
      injectableState (expire_timers t st)) := by
  unfold handle_vmexit_tail
  set E := expire_timers t st with hE
  have hne : ¬ E.pending_interrupts = [] := by
    rw [hA]
    simp
  rcases hfb : interruptibility_from_bits
      (vmcs_read VmcsField.GuestInterruptibilityInfo E.vmcs) with _ | i
  · rw [gating_invalid E hne hfb]
    apply iff_of_false
    · intro hc
      exact hc
    · intro hc
      have hinj' := hc
      unfold injectableState at hinj'
      have h0 : interruptibility_from_bits
          (vmcs_read VmcsField.GuestInterruptibilityInfo E.vmcs) = some 0 := by
        rw [hinj'.1]
        rfl
      rw [hfb] at h0
      cases h0
  · by_cases hinj : injectableState E
    · have hinj' := hinj
      unfold injectableState at hinj'
      obtain ⟨hint, hifb⟩ := hinj'
      have hi0 : i = 0 := (interruptibility_from_bits_some hfb).trans hint
      subst hi0
      have hif : ¬ vmcs_read VmcsField.GuestRflags E.vmcs &&&
          0b1000000000 = 0 := by
        rw [and_512_eq_zero_iff]
        simp [hifb]
      apply iff_of_true _ hinj
      by_cases hr : rest = []
      · subst hr
        rw [gating_inject_last E v k hA hfb hif]
        simp only [onOk]
        refine ⟨withVmcsPending_pending .., ?_⟩
        rw [withVmcsPending_vmcs, vmcs_read_write_ne _ _ _ _ (by decide),
          vmcs_read_write_same]
      · rw [gating_inject_more E v k rest hA hfb hif hr]
        simp only [onOk]
        refine ⟨withVmcsPending_pending .., ?_⟩
        rw [withVmcsPending_vmcs, vmcs_read_write_ne _ _ _ _ (by decide),
          vmcs_read_write_same]
    · have hblock : ¬ i = 0 ∨ vmcs_read VmcsField.GuestRflags E.vmcs &&&
          0b1000000000 = 0 := by
        have hival := interruptibility_from_bits_some hfb
        unfold injectableState at hinj
        rcases not_and_or.mp hinj with h1 | h1
        · left
          rw [hival]
          exact h1
        · right
          rw [and_512_eq_zero_iff]
          simpa using h1
      rw [gating_blocked E i hne hfb hblock]
      apply iff_of_false _ hinj
      intro hc
      simp only [onOk] at hc
      have hpend := hc.1
      rw [withVmcs_pending, hA] at hpend
      exact List.cons_ne_self _ _ hpend

/-- C3 witness: a single pending external interrupt at vector 5 in an
injectable state; the equivalence is applied at that concrete input. -/
theorem c3_injection_gating_witness :
    (onOk (fun s => s.pending_interrupts = [] ∧
        vmcs_read VmcsField.VmEntryIntrInfoField s.vmcs =
          0x80000000 ||| 5 |||
            (InjectedInterruptType.externalInterrupt.val <<< 8))
      (handle_vmexit_tail [] onePendingSt) ↔
      injectableState (expire_timers [] onePendingSt)) :=
  c3_injection_gating [] onePendingSt 5
    InjectedInterruptType.externalInterrupt [] rfl

/-- C4: when the post-amble injects, it removes exactly the head of the
sorted pending map — the lowest-vector entry `(v, k)` — and writes
`VmEntryIntrInfoField = 0x80000000 ||| v ||| (k <<< 8)`. -/
theorem c4_lowest_vector_injection (t : List (Nat × InjectedInterruptType))
    (st : VCpuState) (v : Nat) (k : InjectedInterruptType)
    (rest : PendingMap)
    (hA : (expire_timers t st).pending_interrupts = (v, k) :: rest)
    (hsort : pendingSorted ((expire_timers t st).pending_interrupts))
    (hinj : injectableState (expire_timers t st)) :
    onOk (fun s => s.pending_interrupts = rest ∧
        vmcs_read VmcsField.VmEntryIntrInfoField s.vmcs =
          0x80000000 ||| v ||| (k.val <<< 8) ∧
        ∀ p ∈ (expire_timers t st).pending_interrupts, v ≤ p.1)
      (handle_vmexit_tail t st) := by
  unfold handle_vmexit_tail
  set E := expire_timers t st with hE
  have hmin : ∀ p ∈ E.pending_interrupts, v ≤ p.1 := by
    rw [hA]
    rw [hA] at hsort
    exact pendingSorted_head_min v k rest hsort
  have hinj' := hinj
  unfold injectableState at hinj'
  obtain ⟨hint, hifb⟩ := hinj'
  have hfb : interruptibility_from_bits
      (vmcs_read VmcsField.GuestInterruptibilityInfo E.vmcs) = some 0 := by
    rw [hint]
    rfl
  have hif : ¬ vmcs_read VmcsField.GuestRflags E.vmcs &&&
      0b1000000000 = 0 := by
    rw [and_512_eq_zero_iff]
    simp [hifb]
  by_cases hr : rest = []
  · subst hr
    rw [gating_inject_last E v k hA hfb hif]
    simp only [onOk]
    refine ⟨withVmcsPending_pending .., ?_, hmin⟩
    rw [withVmcsPending_vmcs, vmcs_read_write_ne _ _ _ _ (by decide),
      vmcs_read_write_same]
  · rw [gating_inject_more E v k rest hA hfb hif hr]
    simp only [onOk]
    refine ⟨withVmcsPending_pending .., ?_, hmin⟩
    rw [withVmcsPending_vmcs, vmcs_read_write_ne _ _ _ _ (by decide),
      vmcs_read_write_same]

/-- C4 witness: the spec's lowest-vector example — pending vectors
{0x30, 0x21, 0x40} inserted in that order; the first injected vector is
0x21 and the remaining map is {0x30, 0x40}. -/
theorem c4_lowest_vector_injection_witness :
    onOk (fun s => s.pending_interrupts =
        [(0x30, InjectedInterruptType.externalInterrupt),
          (0x40, InjectedInterruptType.externalInterrupt)] ∧
        vmcs_read VmcsField.VmEntryIntrInfoField s.vmcs =
          0x80000000 ||| 0x21 |||
            (InjectedInterruptType.externalInterrupt.val <<< 8) ∧
        ∀ p ∈ (expire_timers [] threePendingSt).pending_interrupts,
          0x21 ≤ p.1)
      (handle_vmexit_tail [] threePendingSt) :=
  c4_lowest_vector_injection [] threePendingSt 0x21
    InjectedInterruptType.externalInterrupt
    [(0x30, InjectedInterruptType.externalInterrupt),
      (0x40, InjectedInterruptType.externalInterrupt)]
    rfl (by decide) (by decide)

end Mythril
